import Mathlib

/-!
Verification of the nRF52840 ESB-to-USB-HID receiver firmware (src/src/main.c).

The firmware is event driven.  Its observable behaviour, as far as the
specification is concerned, consists of:
  * a readiness flag (`configured`, a C global of type `volatile bool`)
    mutated by the USB status callback `usb_status_cb`;
  * the ESB event handler `receiver_esb_event_handler`, which on a
    received radio payload may emit HID reports through
    `hid_int_ep_write` and writes log lines.

We embed both handlers as pure Lean functions.  State (the `configured`
flag) is passed explicitly; the side effects of one call of the ESB
handler are collected in a `HandlerOutput` value listing, in order, the
8-byte reports written to the USB HID interrupt endpoint and the log
entries produced.

A careful note on the C control flow of `receiver_esb_event_handler`:
the braces in the source do not nest the way the indentation suggests.
Tracing the tokens of the `ESB_EVENT_RX_RECEIVED` case:

    if (esb_read_rx_payload(&rx_payload) == 0) {
        ... three unconditional log lines ...
        if (rx_payload.length == 8) {
            LOG_INF("Processing HID report (8 bytes)");
            if (hid_dev && configured) {
                ... two hid_int_ep_write calls ...
        } else if (rx_payload.length == 2) {        -- closes the hid_dev if;
            ... test payload log ...                -- chain attaches to it
        } else {
            ... unexpected length warning ...
        }
    } else {                                        -- closes length == 8
        LOG_ERR("Failed to read RX payload");       -- runs when length != 8
    }
    break;
    }

so (a) the `else if (rx_payload.length == 2)` / final `else` chain is
attached to `if (hid_dev && configured)` and therefore only reachable
when `length == 8`, making the test-payload branch dead code, (b) the
`LOG_ERR("Failed to read RX payload")` block is the else-branch of
`if (rx_payload.length == 8)` and fires exactly when the read SUCCEEDED
with a length other than 8, and (c) when `esb_read_rx_payload` returns
nonzero nothing at all is executed.  The embedding below reproduces this
actual control flow faithfully.
-/

namespace Receiver

/-- An ESB payload as read by `esb_read_rx_payload`: a declared valid
length and the underlying fixed-size data buffer.  The buffer is modelled
as a total function since C array reads such as `rx_payload.data[0]` are
in bounds of the buffer even when beyond the declared `length`. -/
structure EsbPayload where
  length : Nat
  data : Nat → Nat

/-- The `esb_evt_id` values handled by `receiver_esb_event_handler`. -/
inductive EsbEventId where
  | txSuccess
  | txFailed
  | rxReceived
deriving DecidableEq

/-- The USB device-controller status codes discriminated by
`usb_status_cb`; `other` covers every code falling to `default:`. -/
inductive UsbDcStatus where
  | configured
  | disconnected
  | reset
  | suspend
  | resume
  | other (code : Nat)
deriving DecidableEq

/-- Labels of the two `LOG_HEXDUMP_INF` calls in the handler. -/
inductive HexLabel where
  | rawPayload
  | unexpectedPayload
deriving DecidableEq

/-- One log line produced by `receiver_esb_event_handler`, one
constructor per `LOG_*` call site, carrying the formatted arguments. -/
inductive LogEntry where
  | txSuccessUnexpected
  | txFailedUnexpected
  | receivedPayload (length : Nat)
  | dataDpDm (dp dm : Nat)
  | hexdump (label : HexLabel) (bytes : List Nat)
  | processingHidReport
  | testPayload (dp dm : Nat)
  | unexpectedLength (length : Nat)
  | failedReadRxPayload
deriving DecidableEq

/-- Log severity, mirroring `LOG_INF` / `LOG_WRN` / `LOG_ERR`. -/
inductive Severity where
  | info
  | warn
  | error
deriving DecidableEq

/-- The severity each call site logs at. -/
def LogEntry.severity : LogEntry → Severity
  | .txSuccessUnexpected => .info
  | .txFailedUnexpected => .error
  | .receivedPayload _ => .info
  | .dataDpDm _ _ => .info
  | .hexdump _ _ => .info
  | .processingHidReport => .info
  | .testPayload _ _ => .info
  | .unexpectedLength _ => .warn
  | .failedReadRxPayload => .error

/-- The observable effects of one call of `receiver_esb_event_handler`:
the byte strings written to the HID interrupt endpoint (in write order),
the log entries (in order), and the value of the `configured` flag when
the handler returns (the handler contains no assignment to it). -/
structure HandlerOutput where
  reports : List (List Nat)
  logs : List LogEntry
  configured_out : Bool
deriving DecidableEq

/-- The first `n` bytes of a payload buffer, as read by `memcpy(_, data, n)`
or dumped by `LOG_HEXDUMP_INF(data, n, _)`. -/
def firstBytes (data : Nat → Nat) (n : Nat) : List Nat :=
  (List.range n).map data

/-- Embedding of `receiver_esb_event_handler` (src/src/main.c lines
81-115).  `readRes` is the outcome of `esb_read_rx_payload`: `some p`
when it returns 0 having filled `rx_payload` with `p`, `none` when it
returns nonzero.  `hid_dev` is whether the global device handle is
non-null; `configured` is the readiness flag.  The branch structure
follows the actual brace nesting of the source, documented above. -/
def receiver_esb_event_handler (evt : EsbEventId) (readRes : Option EsbPayload)
    (hid_dev : Bool) (configured : Bool) : HandlerOutput :=
  match evt with
  | .txSuccess =>
      { reports := [], logs := [.txSuccessUnexpected], configured_out := configured }
  | .txFailed =>
      { reports := [], logs := [.txFailedUnexpected], configured_out := configured }
  | .rxReceived =>
    match readRes with
    | some rx_payload =>
      let baseLogs : List LogEntry :=
        [.receivedPayload rx_payload.length,
         .dataDpDm (rx_payload.data 0) (rx_payload.data 1),
         .hexdump .rawPayload (firstBytes rx_payload.data rx_payload.length)]
      if rx_payload.length = 8 then
        let logs8 := baseLogs ++ [.processingHidReport]
        if hid_dev && configured then
          let hid_report := firstBytes rx_payload.data 8
          let release_report := List.replicate 8 0
          { reports := [hid_report, release_report], logs := logs8,
            configured_out := configured }
        else if rx_payload.length = 2 then
          { reports := [],
            logs := logs8 ++ [.testPayload (rx_payload.data 0) (rx_payload.data 1)],
            configured_out := configured }
        else
          { reports := [],
            logs := logs8 ++
              [.unexpectedLength rx_payload.length,
               .hexdump .unexpectedPayload (firstBytes rx_payload.data rx_payload.length)],
            configured_out := configured }
      else
        { reports := [], logs := baseLogs ++ [.failedReadRxPayload],
          configured_out := configured }
    | none =>
      { reports := [], logs := [], configured_out := configured }

/-- Embedding of `usb_status_cb` (src/src/main.c lines 51-79) as a
transition on the `configured` flag.  (The `k_sem_give` on the
configured case and all log lines touch nothing the claims mention.) -/
def usb_status_cb (status : UsbDcStatus) (configured : Bool) : Bool :=
  match status with
  | .configured => true
  | .disconnected => false
  | .reset => false
  | .suspend => configured
  | .resume => configured
  | .other _ => configured

/-- An event of the whole system: either a USB status callback or an ESB
radio event (with the outcome of the driver read and the device-handle
nullness at that moment). -/
inductive SysEvent where
  | usb (status : UsbDcStatus)
  | esb (evt : EsbEventId) (readRes : Option EsbPayload) (hid_dev : Bool)

/-- One system step acting on the `configured` flag. -/
def sysStep (configured : Bool) : SysEvent → Bool
  | .usb status => usb_status_cb status configured
  | .esb evt readRes hid_dev =>
      (receiver_esb_event_handler evt readRes hid_dev configured).configured_out

/-- The `configured` flag after a sequence of system events. -/
def runEvents (configured : Bool) (events : List SysEvent) : Bool :=
  events.foldl sysStep configured

/-- The subsequence of USB status codes of an event sequence. -/
def usbOnly : List SysEvent → List UsbDcStatus
  | [] => []
  | .usb status :: rest => status :: usbOnly rest
  | .esb _ _ _ :: rest => usbOnly rest

/-- The `configured` flag after a sequence of USB status callbacks alone. -/
def runUsb (configured : Bool) (statuses : List UsbDcStatus) : Bool :=
  statuses.foldl (fun c s => usb_status_cb s c) configured

/-- Concrete payload of the C1 scenario: length 8, data
`[0,0,4,0,0,0,0,0]`. -/
def payloadKeyA : EsbPayload :=
  { length := 8, data := fun i => [0, 0, 4, 0, 0, 0, 0, 0].getD i 0 }

/-- Concrete payload of the C3 scenario: length 2, data `[1,1]`. -/
def payloadDiag : EsbPayload :=
  { length := 2, data := fun i => [1, 1].getD i 0 }

/-- Concrete length-8 payload whose byte 1 is 5 (nonzero). -/
def payloadByte1 : EsbPayload :=
  { length := 8, data := fun i => [0, 5, 4, 0, 0, 0, 0, 0].getD i 0 }

/-- Concrete length-5 payload. -/
def payloadLen5 : EsbPayload :=
  { length := 5, data := fun i => [9, 8, 7, 6, 5].getD i 0 }

/-- Concrete length-0 payload whose buffer still holds bytes. -/
def payloadLen0 : EsbPayload :=
  { length := 0, data := fun i => i + 7 }

/-- Claim C1: a received payload of length 8, with readiness true and the
HID device available, makes the handler emit exactly two 8-byte reports:
the payload's first 8 bytes verbatim, then an all-zero release report,
in that order. -/
theorem C1_forward_two_reports (p : EsbPayload) (h : p.length = 8) :
    (receiver_esb_event_handler .rxReceived (some p) true true).reports =
      [firstBytes p.data 8, List.replicate 8 0] ∧
    (firstBytes p.data 8).length = 8 ∧ (List.replicate 8 0).length = 8 := by
  refine ⟨?_, by simp [firstBytes], by simp⟩
  simp [receiver_esb_event_handler, h]

/-- Witness for C1 at the spec scenario `{length:8, data:[0,0,4,0,0,0,0,0]}`. -/
theorem C1_forward_two_reports_witness :
    payloadKeyA.length = 8 ∧
    (receiver_esb_event_handler .rxReceived (some payloadKeyA) true true).reports =
      [[0, 0, 4, 0, 0, 0, 0, 0], [0, 0, 0, 0, 0, 0, 0, 0]] := by
  refine ⟨rfl, ?_⟩
  rw [(C1_forward_two_reports payloadKeyA rfl).1]
  decide

/-- Claim C2 (code bug): the spec says a failed driver read logs exactly one
error, calls no translator and emits nothing.  In the source the
`LOG_ERR("Failed to read RX payload")` block is brace-attached as the
else-branch of `if (rx_payload.length == 8)`, not of the read check, so a
failed `esb_read_rx_payload` executes no statement at all: the handler
emits no report but also produces zero log entries, contradicting the
claimed single error log. -/
theorem C2_read_failure_silent (hid_dev configured : Bool) :
    (receiver_esb_event_handler .rxReceived none hid_dev configured).reports = [] ∧
    (receiver_esb_event_handler .rxReceived none hid_dev configured).logs = [] :=
  ⟨rfl, rfl⟩

/-- Claim C3 (code bug): on the spec scenario `{length:2, data:[1,1]}` no USB
report is emitted, but the dedicated test-payload diagnostic is never
logged: because the `else if (rx_payload.length == 2)` branch is
brace-attached under `if (rx_payload.length == 8)`, it is dead code for
every input, and the length-2 payload instead hits the misplaced
`LOG_ERR("Failed to read RX payload")`. -/
theorem C3_diagnostic_branch_dead :
    ((receiver_esb_event_handler .rxReceived (some payloadDiag) true true).reports = [] ∧
     (receiver_esb_event_handler .rxReceived (some payloadDiag) true true).logs =
       [.receivedPayload 2, .dataDpDm 1 1, .hexdump .rawPayload [1, 1],
        .failedReadRxPayload]) ∧
    ∀ (evt : EsbEventId) (readRes : Option EsbPayload) (h c : Bool) (dp dm : Nat),
      LogEntry.testPayload dp dm ∉ (receiver_esb_event_handler evt readRes h c).logs := by
  refine ⟨⟨by decide, by decide⟩, ?_⟩
  intro evt readRes h c dp dm
  cases evt with
  | txSuccess => simp [receiver_esb_event_handler]
  | txFailed => simp [receiver_esb_event_handler]
  | rxReceived =>
    cases readRes with
    | none => simp [receiver_esb_event_handler]
    | some p =>
      by_cases h8 : p.length = 8
      · by_cases hc : h && c
        · simp [receiver_esb_event_handler, h8, hc]
        · have h2 : ¬ (8 : Nat) = 2 := by decide
          simp [receiver_esb_event_handler, h8, hc]
      · simp [receiver_esb_event_handler, h8]

/-- Claim C4: a successfully read payload whose length is neither 2 nor 8,
or of length 8 while readiness is false, causes zero USB reports. -/
theorem C4_not_forwarded (p : EsbPayload) (hid_dev configured : Bool)
    (h : (p.length ≠ 2 ∧ p.length ≠ 8) ∨ (p.length = 8 ∧ configured = false)) :
    (receiver_esb_event_handler .rxReceived (some p) hid_dev configured).reports = [] := by
  rcases h with ⟨-, h8⟩ | ⟨h8, hc⟩
  · simp [receiver_esb_event_handler, h8]
  · subst hc
    simp [receiver_esb_event_handler, h8]

/-- Witness for C4 at the concrete length-5 payload. -/
theorem C4_not_forwarded_witness :
    ((payloadLen5.length ≠ 2 ∧ payloadLen5.length ≠ 8) ∨
       (payloadLen5.length = 8 ∧ true = false)) ∧
    (receiver_esb_event_handler .rxReceived (some payloadLen5) true true).reports = [] :=
  ⟨Or.inl ⟨by decide, by decide⟩,
   C4_not_forwarded payloadLen5 true true (Or.inl ⟨by decide, by decide⟩)⟩

/-- Counterexample to claim C5 as stated: with payload
`[0,5,4,0,0,0,0,0]` (length 8, readiness true, device available) the
first emitted report has byte 1 equal to 5, not 0 — the payload bytes are
forwarded verbatim with no repacking of the reserved byte. -/
theorem C5_counterexample :
    (receiver_esb_event_handler .rxReceived (some payloadByte1) true true).reports =
      [[0, 5, 4, 0, 0, 0, 0, 0], [0, 0, 0, 0, 0, 0, 0, 0]] ∧
    ¬ (∀ r ∈ (receiver_esb_event_handler .rxReceived (some payloadByte1) true true).reports,
        r.getD 1 0 = 0) := by
  decide

/-- Claim C5 amended: every emitted report is exactly 8 bytes; when
anything is emitted it is the live report followed by the all-zero
release report; the release report's byte 1 is zero, but the live
report's byte 1 equals the payload's byte 1 (zero only when the payload
already carries zero there). -/
theorem C5_report_shape (p : EsbPayload) (hid_dev configured : Bool) :
    ((receiver_esb_event_handler .rxReceived (some p) hid_dev configured).reports = [] ∨
     (receiver_esb_event_handler .rxReceived (some p) hid_dev configured).reports =
       [firstBytes p.data 8, List.replicate 8 0]) ∧
    (firstBytes p.data 8).length = 8 ∧
    (List.replicate 8 0).length = 8 ∧
    (firstBytes p.data 8).getD 1 0 = p.data 1 ∧
    (List.replicate 8 0).getD 1 0 = 0 := by
  refine ⟨?_, by simp [firstBytes], by simp, ?_, by simp⟩
  · by_cases h8 : p.length = 8
    · by_cases hc : hid_dev && configured
      · right
        simp [receiver_esb_event_handler, h8, hc]
      · left
        simp [receiver_esb_event_handler, h8, hc]
    · left
      simp [receiver_esb_event_handler, h8]
  · rfl

/-- Claim C6: the USB status callback sets readiness true on `configured`,
false on `disconnected` and `reset`, and leaves it unchanged on
`suspended`, `resumed` and any unrecognized code. -/
theorem C6_usb_transitions (configured : Bool) (code : Nat) :
    usb_status_cb .configured configured = true ∧
    usb_status_cb .disconnected configured = false ∧
    usb_status_cb .reset configured = false ∧
    usb_status_cb .suspend configured = configured ∧
    usb_status_cb .resume configured = configured ∧
    usb_status_cb (.other code) configured = configured :=
  ⟨rfl, rfl, rfl, rfl, rfl, rfl⟩

/-- After any positive number of consecutive `configured` events, the
readiness flag is true, whatever its prior value. -/
theorem replicate_configured_true (m : Nat) :
    runUsb true (List.replicate m .configured) = true := by
  induction m with
  | zero => rfl
  | succ k ih => exact ih

/-- Claim C7: processing `configured` events is idempotent on readiness:
from any prior value, one or more consecutive `configured` events leave
the flag true. -/
theorem C7_configured_idempotent (configured : Bool) (n : Nat) (h : 1 ≤ n) :
    runUsb configured (List.replicate n .configured) = true := by
  cases n with
  | zero => omega
  | succ m => exact replicate_configured_true m

/-- Witness for C7: three consecutive `configured` events from readiness
false end at true. -/
theorem C7_configured_idempotent_witness :
    1 ≤ 3 ∧ runUsb false (List.replicate 3 .configured) = true :=
  ⟨by decide, C7_configured_idempotent false 3 (by decide)⟩

/-- The ESB handler returns the readiness flag unchanged for every event,
payload and read outcome (it contains no assignment to `configured`). -/
theorem configured_out_eq (evt : EsbEventId) (readRes : Option EsbPayload)
    (hid_dev conf : Bool) :
    (receiver_esb_event_handler evt readRes hid_dev conf).configured_out = conf := by
  cases evt with
  | txSuccess => rfl
  | txFailed => rfl
  | rxReceived =>
    cases readRes with
    | none => rfl
    | some p =>
      simp only [receiver_esb_event_handler]
      split_ifs <;> rfl

/-- Over any interleaved sequence of USB and radio events, the readiness
flag equals the fold of the USB callback over the USB events alone. -/
theorem runEvents_eq_runUsb (events : List SysEvent) (conf : Bool) :
    runEvents conf events = runUsb conf (usbOnly events) := by
  induction events generalizing conf with
  | nil => rfl
  | cons e rest ih =>
    cases e with
    | usb status => exact ih (usb_status_cb status conf)
    | esb evt readRes hid_dev =>
      have h := configured_out_eq evt readRes hid_dev conf
      calc runEvents conf (.esb evt readRes hid_dev :: rest)
          = runEvents (receiver_esb_event_handler evt readRes hid_dev conf).configured_out
              rest := rfl
        _ = runEvents conf rest := by rw [h]
        _ = runUsb conf (usbOnly rest) := ih conf
        _ = runUsb conf (usbOnly (.esb evt readRes hid_dev :: rest)) := rfl

/-- Claim C8: the readiness flag is a frame of the radio path — every ESB
event leaves it unchanged, and over any event sequence its final value is
determined by the USB status events alone. -/
theorem C8_readiness_frame (conf : Bool) :
    (∀ (evt : EsbEventId) (readRes : Option EsbPayload) (hid_dev : Bool),
        (receiver_esb_event_handler evt readRes hid_dev conf).configured_out = conf) ∧
    ∀ events : List SysEvent, runEvents conf events = runUsb conf (usbOnly events) :=
  ⟨fun evt readRes hid_dev => configured_out_eq evt readRes hid_dev conf,
   fun events => runEvents_eq_runUsb events conf⟩

/-- Claim C9: with a null HID device handle, a length-8 payload emits no
report even when readiness is true. -/
theorem C9_null_hid_no_reports (p : EsbPayload) (configured : Bool) (h : p.length = 8) :
    (receiver_esb_event_handler .rxReceived (some p) false configured).reports = [] := by
  simp [receiver_esb_event_handler, h]

/-- Witness for C9 at the concrete length-8 payload with readiness true. -/
theorem C9_null_hid_no_reports_witness :
    payloadKeyA.length = 8 ∧
    (receiver_esb_event_handler .rxReceived (some payloadKeyA) false true).reports = [] :=
  ⟨rfl, C9_null_hid_no_reports payloadKeyA true rfl⟩

/-- Claim C10: for every successfully read payload, whatever its length,
the second log entry reads `data[0]` and `data[1]` (the D+/D- line)
before any length discrimination; in particular a length-0 payload still
has its buffer bytes 0 and 1 read and logged. -/
theorem C10_dpdm_always_read (p : EsbPayload) (hid_dev configured : Bool) :
    ((receiver_esb_event_handler .rxReceived (some p) hid_dev configured).logs.get? 0 =
        some (.receivedPayload p.length) ∧
     (receiver_esb_event_handler .rxReceived (some p) hid_dev configured).logs.get? 1 =
        some (.dataDpDm (p.data 0) (p.data 1))) ∧
    payloadLen0.length = 0 ∧
    (receiver_esb_event_handler .rxReceived (some payloadLen0) true true).logs.get? 1 =
      some (.dataDpDm 7 8) := by
  refine ⟨?_, rfl, by decide⟩
  by_cases h8 : p.length = 8
  · by_cases hc : hid_dev && configured
    · constructor <;> simp [receiver_esb_event_handler, h8, hc]
    · constructor <;> simp [receiver_esb_event_handler, h8, hc]
  · constructor <;> simp [receiver_esb_event_handler, h8]

end Receiver
